import Mathlib

/-!
Shallow embedding of the Binance trading interface workflow
(`BinanceTradingInterface` in src/route.ts): the connection session,
balance collection and order form state, the three gateway handlers
`connectBinance`, `fetchBalances` and `placeOrder`, and the UI-level
event step with its render/disable guards.

Gateway interactions are modelled by passing the settled outcome of each
HTTP exchange as data; each handler returns the post-settlement component
state together with the list of requests it issued, in issue order.
-/

/-- `interface Balance { asset; free; locked }` from src/route.ts. -/
structure Balance where
  asset : String
  free : String
  locked : String
deriving DecidableEq, Repr

/-- Order side, the `"BUY" | "SELL"` union in src/route.ts. -/
inductive Side where
  | BUY
  | SELL
deriving DecidableEq, Repr

/-- Order type, the `"MARKET" | "LIMIT"` union in src/route.ts. -/
inductive OrderType where
  | MARKET
  | LIMIT
deriving DecidableEq, Repr

/-- `interface OrderData { symbol; side; type; quantity }` from src/route.ts. -/
structure OrderData where
  symbol : String
  side : Side
  type : OrderType
  quantity : Rat
deriving DecidableEq, Repr

/-- The React state of `BinanceTradingInterface`: one field per `useState`
hook (`isConnected`, `balances`, `apiKey`, `apiSecret`, `loading`,
`orderData`). -/
structure ComponentState where
  isConnected : Bool
  balances : List Balance
  apiKey : String
  apiSecret : String
  loading : Bool
  orderData : OrderData
deriving DecidableEq, Repr

/-- The initial state of the component, from the `useState` initializers. -/
def initState : ComponentState :=
  { isConnected := false
    balances := []
    apiKey := ""
    apiSecret := ""
    loading := false
    orderData :=
      { symbol := "BTCUSDT", side := Side.BUY, type := OrderType.MARKET,
        quantity := 0.001 } }

/-- An HTTP request issued to the backend gateway, with the body fields the
component actually sends. -/
inductive Request where
  | connectReq (api_key api_secret user_id : String)
  | balancesReq (user_id : String)
  | orderReq (symbol : String) (side : Side) (type : OrderType)
      (quantity : Rat) (user_id : String)
deriving DecidableEq, Repr

/-- Whether a request targets the balances endpoint. -/
def isBalancesReq : Request → Bool
  | Request.balancesReq _ => true
  | _ => false

/-- Whether a request targets the connect endpoint. -/
def isConnectReq : Request → Bool
  | Request.connectReq _ _ _ => true
  | _ => false

/-- Whether a request targets the order endpoint. -/
def isOrderReq : Request → Bool
  | Request.orderReq _ _ _ _ _ => true
  | _ => false

/-- Settled outcome of the balances exchange, as seen by `fetchBalances`:
the body parsed as JSON (with the `balances` field present-and-truthy or
not — `fetchBalances` never inspects the HTTP status), the fetch itself
threw, or `response.json()` threw. -/
inductive BalancesResponse where
  | parsed (balancesField : Option (List Balance))
  | networkError
  | parseError
deriving DecidableEq, Repr

/-- Settled outcome of the connect exchange: `response.ok` true,
`response.ok` false, or the fetch threw. -/
inductive ConnectOutcome where
  | success
  | httpFailure
  | networkError
deriving DecidableEq, Repr

/-- Settled outcome of the order exchange: `response.ok` true (with the
flag recording whether `await response.json()` on the success body
succeeded), `response.ok` false, or the fetch threw. -/
inductive OrderOutcome where
  | success (bodyParsed : Bool)
  | httpFailure
  | networkError
deriving DecidableEq, Repr

/-- `fetchBalances` from src/route.ts: issues one balances request; if the
body parses and `data.balances` is truthy, `setBalances(data.balances)`
replaces the whole collection; otherwise (field absent/falsy, network
error, or JSON parse error) the state is untouched and errors are only
logged. -/
def fetchBalances (s : ComponentState) (resp : BalancesResponse) :
    ComponentState × List Request :=
  let req := Request.balancesReq "default"
  match resp with
  | BalancesResponse.parsed (some bs) => ({ s with balances := bs }, [req])
  | BalancesResponse.parsed none => (s, [req])
  | BalancesResponse.networkError => (s, [req])
  | BalancesResponse.parseError => (s, [req])

/-- `connectBinance` from src/route.ts: sets `loading`, issues one connect
request carrying `apiKey`, `apiSecret` and the hard-coded `"default"`
user id; on `response.ok` sets `isConnected` and calls `fetchBalances`;
on failure only logs; finally clears `loading`. `balResp` is the settled
balances outcome consumed when the fetch is triggered. -/
def connectBinance (s : ComponentState) (outcome : ConnectOutcome)
    (balResp : BalancesResponse) : ComponentState × List Request :=
  let s1 := { s with loading := true }
  let req := Request.connectReq s.apiKey s.apiSecret "default"
  match outcome with
  | ConnectOutcome.success =>
      let s2 := { s1 with isConnected := true }
      let p := fetchBalances s2 balResp
      ({ p.1 with loading := false }, req :: p.2)
  | ConnectOutcome.httpFailure => ({ s1 with loading := false }, [req])
  | ConnectOutcome.networkError => ({ s1 with loading := false }, [req])

/-- `placeOrder` from src/route.ts: sets `loading`, issues one order
request built from the `orderData` snapshot plus the `"default"` user id;
on `response.ok` it first runs `await response.json()` on the result body
and, only if that parse succeeds, triggers `fetchBalances`; any thrown
error is only logged; finally clears `loading`. The parsed result is
never stored. -/
def placeOrder (s : ComponentState) (outcome : OrderOutcome)
    (balResp : BalancesResponse) : ComponentState × List Request :=
  let s1 := { s with loading := true }
  let req := Request.orderReq s.orderData.symbol s.orderData.side
      s.orderData.type s.orderData.quantity "default"
  match outcome with
  | OrderOutcome.success true =>
      let p := fetchBalances s1 balResp
      ({ p.1 with loading := false }, req :: p.2)
  | OrderOutcome.success false => ({ s1 with loading := false }, [req])
  | OrderOutcome.httpFailure => ({ s1 with loading := false }, [req])
  | OrderOutcome.networkError => ({ s1 with loading := false }, [req])

/-- The `disabled` expression on the connect button:
`loading || !apiKey || !apiSecret` (a JS string is falsy iff empty). -/
def connectButtonDisabled (s : ComponentState) : Bool :=
  s.loading || s.apiKey.isEmpty || s.apiSecret.isEmpty

/-- A user interaction on the rendered component. Each constructor carries
the settled gateway outcome(s) its handler consumes. -/
inductive Event where
  | clickConnect (outcome : ConnectOutcome) (balResp : BalancesResponse)
  | clickRefresh (resp : BalancesResponse)
  | clickOrder (outcome : OrderOutcome) (balResp : BalancesResponse)
  | setApiKeyInput (v : String)
  | setApiSecretInput (v : String)
  | selectSymbol (v : String)
  | selectSide (v : Side)
  | inputQuantity (v : Rat)

/-- One UI event step of `BinanceTradingInterface`, with the guards the
JSX imposes: the credential form (key/secret inputs and the connect
button) renders only while `!isConnected`, the connect button is further
disabled by `connectButtonDisabled`; the refresh, order-form and
order-submit controls render only while `isConnected`, and the order
button is disabled while `loading`. A guarded-out event is a no-op that
issues no request. -/
def step (s : ComponentState) (e : Event) : ComponentState × List Request :=
  match e with
  | Event.clickConnect o r =>
      if !s.isConnected && !connectButtonDisabled s then connectBinance s o r
      else (s, [])
  | Event.clickRefresh r =>
      if s.isConnected then fetchBalances s r else (s, [])
  | Event.clickOrder o r =>
      if s.isConnected && !s.loading then placeOrder s o r else (s, [])
  | Event.setApiKeyInput v =>
      if !s.isConnected then ({ s with apiKey := v }, []) else (s, [])
  | Event.setApiSecretInput v =>
      if !s.isConnected then ({ s with apiSecret := v }, []) else (s, [])
  | Event.selectSymbol v =>
      if s.isConnected then
        ({ s with orderData := { s.orderData with symbol := v } }, [])
      else (s, [])
  | Event.selectSide v =>
      if s.isConnected then
        ({ s with orderData := { s.orderData with side := v } }, [])
      else (s, [])
  | Event.inputQuantity v =>
      if s.isConnected then
        ({ s with orderData := { s.orderData with quantity := v } }, [])
      else (s, [])

/-- A state already connected, with otherwise-initial fields. -/
def connectedState : ComponentState := { initState with isConnected := true }

/-- A connected state holding one BTC balance row. -/
def btcState : ComponentState :=
  { connectedState with balances := [⟨"BTC", "0.5", "0.0"⟩] }

/-- `fetchBalances` never changes `isConnected`. -/
theorem fetchBalances_isConnected (s : ComponentState) (r : BalancesResponse) :
    (fetchBalances s r).1.isConnected = s.isConnected := by
  cases r with
  | parsed f => cases f <;> rfl
  | networkError => rfl
  | parseError => rfl

/-- C1: on an HTTP-success connect response, `connectBinance` sets the
status to Connected and issues exactly the connect request followed by
one balances fetch: one balances request, no more, no fewer. -/
theorem connect_success_connected_one_fetch (s : ComponentState)
    (r : BalancesResponse) :
    (connectBinance s ConnectOutcome.success r).1.isConnected = true
    ∧ (connectBinance s ConnectOutcome.success r).2
        = [Request.connectReq s.apiKey s.apiSecret "default",
           Request.balancesReq "default"]
    ∧ ((connectBinance s ConnectOutcome.success r).2.filter
        isBalancesReq).length = 1 := by
  cases r with
  | parsed f => cases f <;> exact ⟨rfl, rfl, rfl⟩
  | networkError => exact ⟨rfl, rfl, rfl⟩
  | parseError => exact ⟨rfl, rfl, rfl⟩

/-- C2: whenever either credential field is the empty string the connect
button is disabled, so a click on it is a no-op that issues no request:
no connect request reaches the gateway. -/
theorem empty_credentials_block_connect (s : ComponentState)
    (o : ConnectOutcome) (r : BalancesResponse)
    (h : s.apiKey = "" ∨ s.apiSecret = "") :
    connectButtonDisabled s = true
    ∧ step s (Event.clickConnect o r) = (s, []) := by
  have hd : connectButtonDisabled s = true := by
    cases h with
    | inl hk =>
        have hk' : s.apiKey.isEmpty = true := by rw [hk]; decide
        simp [connectButtonDisabled, hk']
    | inr hs =>
        have hs' : s.apiSecret.isEmpty = true := by rw [hs]; decide
        simp [connectButtonDisabled, hs']
  exact ⟨hd, by simp [step, hd]⟩

/-- C2 witness: in the initial state both fields are empty, the button is
disabled, and clicking connect does nothing. -/
theorem empty_credentials_block_connect_witness :
    initState.apiKey = ""
    ∧ (connectButtonDisabled initState = true
      ∧ step initState
          (Event.clickConnect ConnectOutcome.success
            (BalancesResponse.parsed none)) = (initState, [])) :=
  ⟨rfl, empty_credentials_block_connect initState ConnectOutcome.success
    (BalancesResponse.parsed none) (Or.inl rfl)⟩

/-- C3: a connect attempt that ends in HTTP failure or a network error
leaves the whole state as it was apart from the `loading` round-trip
(so a Disconnected session stays Disconnected), issues exactly one
connect request (no retry) and no balances fetch. -/
theorem connect_failure_self_loop (s : ComponentState) (r : BalancesResponse)
    (h : s.isConnected = false) :
    (connectBinance s ConnectOutcome.httpFailure r).1
        = { s with loading := false }
    ∧ (connectBinance s ConnectOutcome.networkError r).1
        = { s with loading := false }
    ∧ (connectBinance s ConnectOutcome.httpFailure r).1.isConnected = false
    ∧ (connectBinance s ConnectOutcome.networkError r).1.isConnected = false
    ∧ ((connectBinance s ConnectOutcome.httpFailure r).2.filter
        isConnectReq).length = 1
    ∧ ((connectBinance s ConnectOutcome.httpFailure r).2.filter
        isBalancesReq).length = 0
    ∧ ((connectBinance s ConnectOutcome.networkError r).2.filter
        isConnectReq).length = 1
    ∧ ((connectBinance s ConnectOutcome.networkError r).2.filter
        isBalancesReq).length = 0 := by
  refine ⟨rfl, rfl, ?_, ?_, by simp [connectBinance, isConnectReq],
    by simp [connectBinance, isBalancesReq],
    by simp [connectBinance, isConnectReq],
    by simp [connectBinance, isBalancesReq]⟩ <;>
    simpa [connectBinance] using h

/-- C3 witness: a failed connect from the initial state is a self-loop. -/
theorem connect_failure_self_loop_witness :
    initState.isConnected = false
    ∧ (connectBinance initState ConnectOutcome.httpFailure
        (BalancesResponse.parsed none)).1 = { initState with loading := false } :=
  ⟨rfl, (connect_failure_self_loop initState (BalancesResponse.parsed none)
    rfl).1⟩

/-- C4: a `fetchBalances` invocation that fails (network error, or a body
that could not be parsed) leaves the previously held balance collection
completely unchanged — no partial overwrite, no clearing. -/
theorem refresh_failure_preserves_balances (s : ComponentState) :
    (fetchBalances s BalancesResponse.networkError).1.balances = s.balances
    ∧ (fetchBalances s BalancesResponse.parseError).1.balances = s.balances :=
  ⟨rfl, rfl⟩

/-- C5 counterexample: an order whose gateway response is an HTTP success
but whose success body fails to parse as JSON triggers zero balances
refreshes, refuting "exactly one refresh after every HTTP success". -/
theorem order_success_one_refresh_cex :
    ¬ ((placeOrder connectedState (OrderOutcome.success false)
        (BalancesResponse.parsed none)).2.filter isBalancesReq).length = 1 := by
  decide

/-- C5 (amended): after an order whose gateway response is an HTTP success
and whose success body parses as JSON, exactly one balances refresh is
triggered, regardless of order side, and the result payload is discarded
(credentials, status and the order draft are untouched); if the success
body cannot be parsed, no refresh occurs. -/
theorem order_success_parsed_one_refresh (s : ComponentState)
    (r : BalancesResponse) :
    ((placeOrder s (OrderOutcome.success true) r).2.filter
        isBalancesReq).length = 1
    ∧ ((placeOrder s (OrderOutcome.success true) r).2.filter
        isOrderReq).length = 1
    ∧ (placeOrder s (OrderOutcome.success true) r).1.orderData = s.orderData
    ∧ (placeOrder s (OrderOutcome.success true) r).1.apiKey = s.apiKey
    ∧ (placeOrder s (OrderOutcome.success true) r).1.apiSecret = s.apiSecret
    ∧ (placeOrder s (OrderOutcome.success true) r).1.isConnected
        = s.isConnected
    ∧ ((placeOrder s (OrderOutcome.success false) r).2.filter
        isBalancesReq).length = 0 := by
  cases r with
  | parsed f =>
      cases f <;>
        exact ⟨by simp [placeOrder, fetchBalances, isBalancesReq],
          by simp [placeOrder, fetchBalances, isOrderReq, isBalancesReq],
          rfl, rfl, rfl, rfl,
          by simp [placeOrder, isBalancesReq]⟩
  | networkError =>
      exact ⟨by simp [placeOrder, fetchBalances, isBalancesReq],
        by simp [placeOrder, fetchBalances, isOrderReq, isBalancesReq],
        rfl, rfl, rfl, rfl, by simp [placeOrder, isBalancesReq]⟩
  | parseError =>
      exact ⟨by simp [placeOrder, fetchBalances, isBalancesReq],
        by simp [placeOrder, fetchBalances, isOrderReq, isBalancesReq],
        rfl, rfl, rfl, rfl, by simp [placeOrder, isBalancesReq]⟩

/-- C6: `fetchBalances` is idempotent with respect to the gateway
response — a second call with the same settled response leaves the
balance collection exactly where the first call put it (full replacement,
no accumulation or duplication). -/
theorem refresh_idempotent (s : ComponentState) (r : BalancesResponse) :
    (fetchBalances (fetchBalances s r).1 r).1.balances
      = (fetchBalances s r).1.balances := by
  cases r with
  | parsed f => cases f <;> rfl
  | networkError => rfl
  | parseError => rfl

/-- C7 counterexample: a balances response whose JSON body lacks the
`balances` field leaves a previously non-empty collection non-empty,
refuting "after the call the displayed Balance collection is empty". -/
theorem missing_balances_field_cex :
    ¬ (fetchBalances btcState (BalancesResponse.parsed none)).1.balances
        = [] := by
  decide

/-- C7 (amended): a balances response whose JSON body lacks the `balances`
field is treated as no update rather than an error — `setBalances` is
skipped, so the displayed collection is left exactly as it was (it is
empty only if it was already empty, as on the initial fetch). -/
theorem missing_balances_field_no_update (s : ComponentState) :
    (fetchBalances s (BalancesResponse.parsed none)).1.balances
      = s.balances := rfl

/-- `placeOrder` never changes `isConnected`. -/
theorem placeOrder_isConnected (s : ComponentState) (o : OrderOutcome)
    (r : BalancesResponse) :
    (placeOrder s o r).1.isConnected = s.isConnected := by
  cases o with
  | success b =>
      cases b with
      | false => rfl
      | true =>
          cases r with
          | parsed f => cases f <;> rfl
          | networkError => rfl
          | parseError => rfl
  | httpFailure => rfl
  | networkError => rfl

/-- C8: while the session is Disconnected the order controls are not
rendered, so an order submission event is a no-op: the state is unchanged
and no request — in particular no order request — is sent to the gateway. -/
theorem order_blocked_when_disconnected (s : ComponentState)
    (o : OrderOutcome) (r : BalancesResponse) (h : s.isConnected = false) :
    step s (Event.clickOrder o r) = (s, [])
    ∧ (step s (Event.clickOrder o r)).2.filter isOrderReq = [] := by
  constructor <;> simp [step, h]

/-- C8 witness: submitting the initial MARKET BUY draft while Disconnected
is blocked and sends nothing. -/
theorem order_blocked_when_disconnected_witness :
    initState.isConnected = false
    ∧ (step initState (Event.clickOrder (OrderOutcome.success true)
          (BalancesResponse.parsed none)) = (initState, [])
      ∧ (step initState (Event.clickOrder (OrderOutcome.success true)
          (BalancesResponse.parsed none))).2.filter isOrderReq = []) :=
  ⟨rfl, order_blocked_when_disconnected initState (OrderOutcome.success true)
    (BalancesResponse.parsed none) rfl⟩

/-- C9: Connected is absorbing — no UI event (connect click, refresh,
order submission, or any field update) ever takes `isConnected` from
`true` back to `false`. -/
theorem connected_absorbing (s : ComponentState) (e : Event)
    (h : s.isConnected = true) :
    (step s e).1.isConnected = true := by
  cases e with
  | clickConnect o r => simp [step, h]
  | clickRefresh r => simp [step, h, fetchBalances_isConnected]
  | clickOrder o r =>
      cases hl : s.loading <;> simp [step, h, hl, placeOrder_isConnected]
  | setApiKeyInput v => simp [step, h]
  | setApiSecretInput v => simp [step, h]
  | selectSymbol v => simp [step, h]
  | selectSide v => simp [step, h]
  | inputQuantity v => simp [step, h]

/-- C9 witness: a connected session stays Connected across an order
submission event. -/
theorem connected_absorbing_witness :
    connectedState.isConnected = true
    ∧ (step connectedState (Event.clickOrder OrderOutcome.httpFailure
        (BalancesResponse.parsed none))).1.isConnected = true :=
  ⟨rfl, connected_absorbing connectedState
    (Event.clickOrder OrderOutcome.httpFailure (BalancesResponse.parsed none))
    rfl⟩

/-- C10: a connect attempt never touches the credential fields or the
order draft, whatever its outcome; on HTTP failure or network error it
additionally leaves the balance collection and the connection status
unchanged — only `loading` (and, on success, status and balances) can
change. -/
theorem connect_frame (s : ComponentState) (o : ConnectOutcome)
    (r : BalancesResponse) :
    (connectBinance s o r).1.apiKey = s.apiKey
    ∧ (connectBinance s o r).1.apiSecret = s.apiSecret
    ∧ (connectBinance s o r).1.orderData = s.orderData
    ∧ (connectBinance s ConnectOutcome.httpFailure r).1.balances = s.balances
    ∧ (connectBinance s ConnectOutcome.httpFailure r).1.isConnected
        = s.isConnected
    ∧ (connectBinance s ConnectOutcome.networkError r).1.balances = s.balances
    ∧ (connectBinance s ConnectOutcome.networkError r).1.isConnected
        = s.isConnected := by
  cases o with
  | success =>
      cases r with
      | parsed f => cases f <;> exact ⟨rfl, rfl, rfl, rfl, rfl, rfl, rfl⟩
      | networkError => exact ⟨rfl, rfl, rfl, rfl, rfl, rfl, rfl⟩
      | parseError => exact ⟨rfl, rfl, rfl, rfl, rfl, rfl, rfl⟩
  | httpFailure => exact ⟨rfl, rfl, rfl, rfl, rfl, rfl, rfl⟩
  | networkError => exact ⟨rfl, rfl, rfl, rfl, rfl, rfl, rfl⟩
